import Mathlib

/-!
Verification of the life-path financial simulation engine of the
college-picker repository, embedded from
src/src/app/api/colleges/alternatives/route.ts.

Monetary amounts are modelled as exact rationals, JavaScript
Math.round as rounding half toward positive infinity, and nullable
fields as Option.  The loops of generateLifePath are embedded as
fuel-indexed structural recursions that thread exactly the mutable
locals of the source (cumulativeDebt, cumulativeEarnings, peakDebt,
breakEvenAge, accumulatedSavings).
-/

namespace CollegePicker

/-- JavaScript Math.round: round half toward positive infinity. -/
def jround (q : ℚ) : ℤ := ⌊q + 1/2⌋

/-- JavaScript truthiness of a nullable number: null and 0 are falsy. -/
def jsTruthy : Option ℚ → Bool
  | none => false
  | some q => q != 0

/-- CareerData record supplied by the career-data provider
(interface CareerData, route.ts lines 166-180). -/
structure CareerData where
  title : String
  medianSalary : ℚ
  salaryLow : ℚ
  salaryHigh : ℚ
  growthRate : ℚ
  educationYears : ℕ
  trainingYears : ℕ
  requiresGradSchool : Bool
  gradSchoolYears : ℕ
  gradCostPerYear : ℚ
  residencyYears : ℕ
  residencySalary : ℚ
  notes : Option String
  deriving Repr, DecidableEq

/-- StudentProfile (route.ts lines 287-295). -/
structure StudentProfile where
  incomeBracket : String
  homeState : String
  intendedMajor : String
  careerGoal : String
  hasScholarships : Bool
  scholarshipAmount : ℚ
  currentAge : Option ℕ
  deriving Repr, DecidableEq

/-- Cost block of a CollegeInput; netPriceByIncome is a string-keyed
record of nullable numbers. -/
structure CollegeCost where
  tuitionInState : Option ℚ
  tuitionOutOfState : Option ℚ
  roomBoardOnCampus : Option ℚ
  avgNetPrice : Option ℚ
  netPriceByIncome : List (String × Option ℚ)
  deriving Repr, DecidableEq

/-- Debt block of a CollegeInput. -/
structure CollegeDebt where
  medianDebt : Option ℚ
  deriving Repr, DecidableEq

/-- Earnings block of a CollegeInput. -/
structure CollegeEarnings where
  median6yr : Option ℚ
  median10yr : Option ℚ
  deriving Repr, DecidableEq

/-- CollegeInput (route.ts lines 297-317). -/
structure CollegeInput where
  id : ℕ
  name : String
  city : String
  state : String
  ownership : String
  cost : CollegeCost
  debt : CollegeDebt
  earnings : CollegeEarnings
  deriving Repr, DecidableEq

/-- Body of a POST /api/colleges/alternatives life-path request. -/
structure LifePathRequest where
  colleges : List CollegeInput
  profile : StudentProfile
  deriving Repr, DecidableEq

/-- One timeline entry (interface LifePathYear, route.ts lines 324-332). -/
structure LifePathYear where
  year : ℕ
  age : ℕ
  phase : String
  description : String
  earnings : Option ℚ
  debt : ℤ
  netWorth : ℤ
  deriving Repr, DecidableEq

/-- The summary block of a LifePath (route.ts lines 347-359); the
cost-breakdown object is flattened into this record and the advisory
warning text is outside the scope of the embedding. -/
structure LifePathSummary where
  totalCost : ℤ
  undergradWithRoomBoard : ℤ
  undergradTuitionOnly : ℤ
  gradSchoolCost : ℤ
  aidAdjustedUndergrad : Option ℤ
  peakDebt : ℤ
  breakEvenAge : Option ℕ
  netWorthAt35 : ℤ
  deriving Repr, DecidableEq

/-- The numeric output of generateLifePath: the timeline and summary. -/
structure LifePath where
  timeline : List LifePathYear
  summary : LifePathSummary
  deriving Repr, DecidableEq

/-- getStickerPrice (route.ts lines 983-990): tuition (in-state or
out-of-state with nullable fallbacks) plus optional room and board. -/
def getStickerPrice (college : CollegeInput) (isInState includeRoomBoard : Bool) : ℚ :=
  let tuition :=
    if isInState then
      college.cost.tuitionInState.getD (college.cost.tuitionOutOfState.getD 15000)
    else
      college.cost.tuitionOutOfState.getD (college.cost.tuitionInState.getD 30000)
  let roomBoard := if includeRoomBoard then college.cost.roomBoardOnCampus.getD 15000 else 0
  tuition + roomBoard

/-- getAidAdjustedPrice (route.ts lines 993-996):
netPriceByIncome[bracket] ?? avgNetPrice ?? null.  A missing key and a
null entry both fall through to avgNetPrice. -/
def getAidAdjustedPrice (college : CollegeInput) (bracket : String) : Option ℚ :=
  match (college.cost.netPriceByIncome.lookup bracket).join with
  | some v => some v
  | none => college.cost.avgNetPrice

/-- The POST handler's only input validation (route.ts lines 1249-1251):
a request is rejected exactly when the college list is missing or empty. -/
def requestRejected (req : LifePathRequest) : Bool :=
  req.colleges.isEmpty

/-- JavaScript toLowerCase, on the character list of a string (ASCII). -/
def lowerChars (l : List Char) : List Char := l.map Char.toLower

/-- JavaScript String.trim on a character list. -/
def trimChars (l : List Char) : List Char :=
  ((l.dropWhile Char.isWhitespace).reverse.dropWhile Char.isWhitespace).reverse

/-- A word character in the sense of JavaScript regex \b boundaries. -/
def isWordChar (c : Char) : Bool := c.isAlphanum || c == '_'

/-- Literal match of a phrase at the head of the text, requiring a word
boundary right after the phrase (the trailing \b of the rules). -/
def litBounded : List Char → List Char → Bool
  | [], [] => true
  | [], c :: _ => !(isWordChar c)
  | _ :: _, [] => false
  | a :: as, b :: bs => a == b && litBounded as bs

/-- Scan the text for a word-boundary anchored occurrence of the phrase;
the flag records whether the previous character was a word character
(the leading \b of the rules). -/
def wbScan (phr : List Char) : Bool → List Char → Bool
  | _, [] => false
  | prevWord, c :: rest =>
    (!prevWord && litBounded phr (c :: rest)) || wbScan phr (isWordChar c) rest

/-- Whether the regex \b(phrase)\b matches somewhere in the text. -/
def wordBoundedIn (phrase : String) (text : List Char) : Bool :=
  wbScan phrase.data false text

/-- Plain substring test at the head of the text. -/
def litStarts : List Char → List Char → Bool
  | [], _ => true
  | _ :: _, [] => false
  | a :: as, b :: bs => a == b && litStarts as bs

/-- JavaScript String.includes on a character list. -/
def containsSub (s : List Char) (sub : String) : Bool :=
  go sub.data s
where
  go (needle : List Char) : List Char → Bool
    | [] => needle.isEmpty
    | c :: rest => litStarts needle (c :: rest) || go needle rest

/-- The ordered keyword rules of matchCareerFromText (route.ts lines
495-578); each regex alternation is its list of literal phrases. -/
def careerPatterns : List (List String × String) :=
  [ (["nursing", "nurse", "rn", "bsn", "lpn", "registered nurse", "nurse practitioner", "np"], "nursing"),
    (["software", "developer", "programmer", "engineer", "coding", "web dev", "data scientist", "devops", "sysadmin", "network admin", "database", "dba", "qa", "tester", "cybersecurity", "cloud", "backend", "frontend", "full stack", "machine learning", "ai engineer"], "tech_engineer"),
    (["product manager", "pm", "product owner", "ux", "ui designer", "scrum master", "agile"], "tech_pm"),
    (["data analyst", "business analyst", "analytics", "statistician", "actuary", "quantitative"], "data_analyst"),
    (["finance", "banker", "investment", "trading", "wall street", "hedge fund", "private equity", "venture capital", "financial advisor", "wealth management", "cfo"], "finance"),
    (["accountant", "accounting", "cpa", "auditor", "tax", "bookkeeper"], "accounting"),
    (["consultant", "consulting", "mckinsey", "bain", "bcg", "deloitte", "pwc", "kpmg", "ey", "accenture"], "consulting"),
    (["neurosurgeon", "neurosurgery", "brain surgeon", "brain surgery"], "neurosurgery"),
    (["surgeon", "surgery", "surgical", "orthopedic surgeon", "cardiac surgeon", "trauma surgeon", "plastic surgeon", "general surgery"], "surgery"),
    (["doctor", "physician", "md", "do", "medical doctor", "pediatrician", "cardiologist", "dermatologist", "psychiatrist", "oncologist", "anesthesiologist", "radiologist"], "medicine"),
    (["dentist", "dental", "orthodontist", "oral surgeon", "periodontist"], "dentistry"),
    (["pharmacist", "pharmacy", "pharmd"], "pharmacy"),
    (["veterinarian", "vet", "veterinary", "animal doctor"], "veterinary"),
    (["optometrist", "optometry", "eye doctor"], "optometry"),
    (["physical therapist", "pt", "dpt", "occupational therapist", "ot", "speech therapist", "slp", "rehab"], "therapy"),
    (["healthcare", "health care", "medical assistant", "technician", "radiology", "sonographer", "phlebotomist", "medical coder", "health admin", "hospital"], "healthcare"),
    (["dental hygienist", "dental assistant", "vet tech", "veterinary tech", "pharmacy tech", "lab tech"], "healthcare_tech"),
    (["lawyer", "attorney", "legal", "paralegal", "judge", "prosecutor", "public defender", "corporate counsel"], "law"),
    (["professor", "academia", "phd", "research", "scientist", "researcher", "postdoc"], "academia"),
    (["teacher", "teaching", "educator", "principal", "school", "tutor", "special education"], "teaching"),
    (["social worker", "counselor", "therapist", "mental health", "case manager", "family services", "child welfare", "lcsw", "lmft"], "social_work"),
    (["artist", "musician", "writer", "filmmaker", "photographer", "actor", "actress", "animator", "video editor", "graphic design", "illustrator", "creative director"], "creative"),
    (["content creator", "influencer", "streamer", "youtuber", "podcaster", "social media", "journalist", "reporter", "news", "broadcasting"], "media"),
    (["entrepreneur", "startup", "founder", "business owner", "self-employed", "freelance", "small business"], "entrepreneur"),
    (["government", "federal", "public sector", "civil servant", "policy", "diplomat", "city planner", "urban planner"], "government"),
    (["electrician", "plumber", "hvac", "carpenter", "mechanic", "welder", "construction", "contractor", "trades", "lineman", "ironworker", "machinist", "cnc", "heavy equipment", "crane operator", "roofer", "painter", "mason"], "trades"),
    (["auto mechanic", "automotive", "car", "diesel", "collision repair", "body shop"], "trades"),
    (["police", "cop", "officer", "firefighter", "emt", "paramedic", "first responder", "detective", "sheriff", "state trooper", "corrections", "prison"], "first_responder"),
    (["military", "army", "navy", "air force", "marines", "coast guard", "national guard", "veteran", "enlisted", "officer"], "military"),
    (["pilot", "aviation", "airline", "flight attendant", "air traffic", "aerospace"], "aviation"),
    (["truck driver", "trucker", "cdl", "logistics", "supply chain", "warehouse", "shipping", "delivery", "ups", "fedex", "amazon"], "logistics"),
    (["real estate", "realtor", "property", "broker", "mortgage", "appraiser"], "real_estate"),
    (["sales", "account executive", "ae", "business development", "bdr", "sdr", "retail", "store manager"], "sales"),
    (["human resources", "hr", "recruiter", "talent", "operations", "office manager", "administrative", "executive assistant", "project manager", "pmp"], "corporate"),
    (["marketing", "brand", "advertising", "seo", "growth", "digital marketing", "pr", "public relations", "communications"], "marketing"),
    (["architect", "architecture", "interior design", "landscape architect"], "architecture"),
    (["chef", "cook", "culinary", "restaurant", "hotel", "hospitality", "event planner", "catering", "bartender", "sommelier"], "hospitality"),
    (["personal trainer", "fitness", "gym", "coach", "athletic trainer", "sports", "yoga", "pilates", "nutritionist", "dietitian"], "fitness"),
    (["cosmetologist", "hair stylist", "barber", "esthetician", "nail tech", "makeup artist", "beauty", "salon", "spa"], "beauty"),
    (["farmer", "farming", "agriculture", "rancher", "agricultural", "agribusiness"], "agriculture"),
    (["nonprofit", "non-profit", "ngo", "charity", "foundation", "advocacy", "community organizer"], "nonprofit") ]

/-- The keys of CAREER_PATH_CONFIG (route.ts lines 590-926), used by
the exact-match step of matchCareerFromText. -/
def careerConfigKeys : List String :=
  [ "tech_engineer", "tech_pm", "finance", "consulting", "medicine", "surgery",
    "neurosurgery", "healthcare", "nursing", "law", "academia", "teaching",
    "creative", "entrepreneur", "government", "not_sure", "trades",
    "first_responder", "military", "real_estate", "sales", "dentistry",
    "pharmacy", "veterinary", "optometry", "therapy", "healthcare_tech",
    "social_work", "media", "data_analyst", "accounting", "aviation",
    "logistics", "corporate", "marketing", "architecture", "hospitality",
    "fitness", "beauty", "agriculture", "nonprofit" ]

/-- matchCareerFromText (route.ts lines 486-587): lowercase and trim,
try an exact key of CAREER_PATH_CONFIG, then the ordered keyword rules,
defaulting to "not_sure". -/
def matchCareerFromText (text : String) : String :=
  let lower := trimChars (lowerChars text.data)
  match careerConfigKeys.find? (fun key => key.data == lower) with
  | some key => key
  | none =>
    match careerPatterns.find? (fun rule => rule.1.any (fun ph => wordBoundedIn ph lower)) with
    | some rule => rule.2
    | none => "not_sure"

/-- No exact career key and no keyword rule matches the (lowercased,
trimmed) text. -/
def noCareerRuleMatches (text : String) : Bool :=
  let lower := trimChars (lowerChars text.data)
  (careerConfigKeys.find? (fun key => key.data == lower)).isNone &&
    careerPatterns.all (fun rule => !rule.1.any (fun ph => wordBoundedIn ph lower))

/-- The 15% savings rate on gross income (route.ts line 1125). -/
def SAVINGS_RATE : ℚ := 0.15

/-- The 7% annual return on savings (route.ts line 1126). -/
def INVESTMENT_RETURN : ℚ := 0.07

/-- The career-phase salary progression (route.ts lines 1136-1154),
as a function of the loop's careerYear (yearsExperience = careerYear - 1). -/
def careerSalary (careerData : CareerData) (careerYear : ℕ) : ℤ :=
  let yearsExperience : ℕ := careerYear - 1
  if yearsExperience ≤ 0 then
    jround (careerData.salaryLow * 0.9)
  else if yearsExperience ≤ 2 then
    let progress : ℚ := (yearsExperience : ℚ) / 2
    jround (careerData.salaryLow * 0.9 +
      (careerData.medianSalary - careerData.salaryLow * 0.9) * progress * 0.5)
  else if yearsExperience ≤ 5 then
    let progress : ℚ := ((yearsExperience : ℚ) - 2) / 3
    let startSalary := careerData.salaryLow * 0.9 +
      (careerData.medianSalary - careerData.salaryLow * 0.9) * 0.5
    jround (startSalary + (careerData.medianSalary - startSalary) * progress)
  else if yearsExperience ≤ 10 then
    let progress : ℚ := ((yearsExperience : ℚ) - 5) / 5
    jround (careerData.medianSalary +
      (careerData.salaryHigh - careerData.medianSalary) * progress * 0.6)
  else
    let progress : ℚ := min (((yearsExperience : ℚ) - 10) / 10) 1
    let base := careerData.medianSalary + (careerData.salaryHigh - careerData.medianSalary) * 0.6
    jround (base + (careerData.salaryHigh - base) * progress * 0.5)

/-- The annual career-phase debt payment (route.ts line 1157):
min(totalDebt / 10 * 1.5, cumulativeDebt) while debt remains. -/
def annualPaymentFn (totalDebt cumulativeDebt : ℚ) : ℚ :=
  if totalDebt > 0 then min (totalDebt / 10 * 1.5) cumulativeDebt else 0

/-- Grad-school snapshot description (route.ts lines 1070-1079). -/
def gradDescription (careerData : CareerData) (year : ℕ) : String :=
  let careerLower := lowerChars careerData.title.data
  if containsSub careerLower "surgeon" || containsSub careerLower "physician" ||
      containsSub careerLower "doctor" then
    "Med school year " ++ toString year
  else if containsSub careerLower "lawyer" || containsSub careerLower "attorney" then
    "Law school year " ++ toString year
  else if containsSub careerLower "professor" || containsSub careerLower "phd" ||
      containsSub careerLower "researcher" then
    "PhD year " ++ toString year
  else
    "Grad school year " ++ toString year

/-- Undergrad loop (route.ts lines 1041-1055), iterating `fuel` years
from loop counter `year`, threading cumulativeDebt and peakDebt. -/
def undergradGo (stickerPriceWithRB : ℚ) (startAge : ℕ) :
    ℕ → ℕ → ℚ → ℚ → List LifePathYear × ℚ × ℚ
  | _, 0, cumulativeDebt, peakDebt => ([], cumulativeDebt, peakDebt)
  | year, fuel + 1, cumulativeDebt, peakDebt =>
    let age := startAge + year - 1
    let cumulativeDebt' := cumulativeDebt + stickerPriceWithRB * 0.6
    let peakDebt' := max peakDebt cumulativeDebt'
    let entry : LifePathYear :=
      { year := year, age := age, phase := "College",
        description :=
          if year == 1 then "Starting undergrad"
          else if year == 4 then "Senior year, preparing to graduate"
          else "Year " ++ toString year ++ " of undergrad",
        earnings := none,
        debt := jround cumulativeDebt',
        netWorth := -(jround cumulativeDebt') }
    let rest := undergradGo stickerPriceWithRB startAge (year + 1) fuel cumulativeDebt' peakDebt'
    (entry :: rest.1, rest.2)

/-- Grad-school loop (route.ts lines 1063-1090). -/
def gradGo (careerData : CareerData) :
    ℕ → ℕ → ℚ → ℚ → List LifePathYear × ℚ × ℚ
  | _, 0, cumulativeDebt, peakDebt => ([], cumulativeDebt, peakDebt)
  | year, fuel + 1, cumulativeDebt, peakDebt =>
    let age := 22 + year - 1
    let yearNum := 4 + year
    let cumulativeDebt' := cumulativeDebt + careerData.gradCostPerYear
    let peakDebt' := max peakDebt cumulativeDebt'
    let entry : LifePathYear :=
      { year := yearNum, age := age, phase := "Grad School",
        description := gradDescription careerData year,
        earnings := none,
        debt := jround cumulativeDebt',
        netWorth := jround (-cumulativeDebt') }
    let rest := gradGo careerData (year + 1) fuel cumulativeDebt' peakDebt'
    (entry :: rest.1, rest.2)

/-- Residency/training loop (route.ts lines 1096-1113); note that the
carried cumulativeDebt is only floored at 0 in the displayed snapshot,
not in the state itself, and that peakDebt is not updated here. -/
def residencyGo (careerData : CareerData) (gradSchoolEndAge : ℕ) :
    ℕ → ℕ → ℚ → ℚ → List LifePathYear × ℚ × ℚ
  | _, 0, cumulativeDebt, cumulativeEarnings => ([], cumulativeDebt, cumulativeEarnings)
  | year, fuel + 1, cumulativeDebt, cumulativeEarnings =>
    let age := gradSchoolEndAge + year - 1
    let yearNum := 4 + careerData.gradSchoolYears + year
    let cumulativeEarnings' := cumulativeEarnings + careerData.residencySalary
    let cumulativeDebt' := cumulativeDebt * 1.05 - 5000
    let entry : LifePathYear :=
      { year := yearNum, age := age, phase := "Residency",
        description := "Residency year " ++ toString year ++ " - working 80hr weeks",
        earnings := some careerData.residencySalary,
        debt := jround (max 0 cumulativeDebt'),
        netWorth := jround (cumulativeEarnings' - max 0 cumulativeDebt') }
    let rest := residencyGo careerData gradSchoolEndAge (year + 1) fuel cumulativeDebt' cumulativeEarnings'
    (entry :: rest.1, rest.2)

/-- Career loop (route.ts lines 1128-1185), threading cumulativeDebt,
accumulatedSavings and breakEvenAge; peakDebt is not updated here. -/
def careerGo (careerData : CareerData) (totalDebt : ℚ)
    (careerStartAge currentYearNum projectionEndAge : ℕ) :
    ℕ → ℕ → ℚ → ℚ → Option ℕ → List LifePathYear × ℚ × ℚ × Option ℕ
  | _, 0, cumulativeDebt, accumulatedSavings, breakEvenAge =>
    ([], cumulativeDebt, accumulatedSavings, breakEvenAge)
  | careerYear, fuel + 1, cumulativeDebt, accumulatedSavings, breakEvenAge =>
    let age := careerStartAge + careerYear - 1
    if age > projectionEndAge then
      ([], cumulativeDebt, accumulatedSavings, breakEvenAge)
    else
      let yearNum := currentYearNum + careerYear
      let currentSalary := careerSalary careerData careerYear
      let annualPayment := annualPaymentFn totalDebt cumulativeDebt
      let cumulativeDebt' := max 0 (cumulativeDebt * 1.05 - annualPayment)
      let annualSavings := max 0 ((currentSalary : ℚ) * SAVINGS_RATE - annualPayment)
      let accumulatedSavings' := accumulatedSavings * (1 + INVESTMENT_RETURN) + annualSavings
      let netWorth := accumulatedSavings' - cumulativeDebt'
      let breakEvenAge' :=
        if breakEvenAge = none ∧ 0 < netWorth then some age else breakEvenAge
      let entry : LifePathYear :=
        { year := yearNum, age := age, phase := "Career",
          description := if careerYear == 1 then "First job" else "Career year " ++ toString careerYear,
          earnings := some (currentSalary : ℚ),
          debt := jround (max 0 cumulativeDebt'),
          netWorth := jround netWorth }
      let rest := careerGo careerData totalDebt careerStartAge currentYearNum projectionEndAge
        (careerYear + 1) fuel cumulativeDebt' accumulatedSavings' breakEvenAge'
      (entry :: rest.1, rest.2)

/-- startAge (route.ts line 1037): profile.currentAge || 18, so a
missing or zero age falls back to 18. -/
def startAgeOf (profile : StudentProfile) : ℕ :=
  match profile.currentAge with
  | some a => if a = 0 then 18 else a
  | none => 18

/-- In-state test (route.ts line 1006): case-insensitive state match. -/
def isInStateOf (college : CollegeInput) (profile : StudentProfile) : Bool :=
  (profile.homeState.data.map Char.toUpper) == (college.state.data.map Char.toUpper)

/-- Sticker price including room and board (route.ts line 1009). -/
def stickerWithRBOf (college : CollegeInput) (profile : StudentProfile) : ℚ :=
  getStickerPrice college (isInStateOf college profile) true

/-- Sticker price, tuition only (route.ts line 1010). -/
def stickerTuitionOnlyOf (college : CollegeInput) (profile : StudentProfile) : ℚ :=
  getStickerPrice college (isInStateOf college profile) false

/-- Aid-adjusted per-year price for the profile's bracket (route.ts line 1017). -/
def aidAdjustedPerYearOf (college : CollegeInput) (profile : StudentProfile) : Option ℚ :=
  getAidAdjustedPrice college profile.incomeBracket

/-- Aid-adjusted 4-year undergrad figure (route.ts line 1018): a JS
truthiness test, so a zero per-year price yields null. -/
def aidAdjustedUndergradOf (college : CollegeInput) (profile : StudentProfile) : Option ℚ :=
  if jsTruthy (aidAdjustedPerYearOf college profile) then
    (aidAdjustedPerYearOf college profile).map (· * 4)
  else none

/-- Scholarship-adjusted 4-year sticker cost (route.ts lines 1020-1021). -/
def adjustedUndergradCostOf (college : CollegeInput) (profile : StudentProfile) : ℚ :=
  let scholarshipOffset := if profile.hasScholarships then profile.scholarshipAmount else 0
  max 0 (stickerWithRBOf college profile * 4 - scholarshipOffset)

/-- The undergraduate debt estimate (route.ts line 1024):
round(adjustedUndergradCost * 0.6). -/
def undergradDebtEst (college : CollegeInput) (profile : StudentProfile) : ℤ :=
  jround (adjustedUndergradCostOf college profile * 0.6)

/-- totalDebt (route.ts lines 1025-1026). -/
def totalDebtOf (college : CollegeInput) (profile : StudentProfile)
    (careerData : CareerData) : ℚ :=
  (undergradDebtEst college profile : ℚ) +
    careerData.gradCostPerYear * (careerData.gradSchoolYears : ℚ)

/-- projectionEndAge (route.ts line 1038): startAge + 17. -/
def projectionEndAgeOf (profile : StudentProfile) : ℕ :=
  startAgeOf profile + 17

/-- careerStartAge (route.ts line 1118). -/
def careerStartAgeOf (profile : StudentProfile) (careerData : CareerData) : ℕ :=
  startAgeOf profile + 4 + careerData.gradSchoolYears + careerData.residencyYears

/-- yearsToShow (route.ts line 1120), computed in ℤ since the career
phase can be squeezed to nothing. -/
def yearsToShowOf (profile : StudentProfile) (careerData : CareerData) : ℤ :=
  (projectionEndAgeOf profile : ℤ) - (careerStartAgeOf profile careerData : ℤ) + 1

/-- Guard of the grad-school loop (route.ts line 1062). -/
def gradActive (careerData : CareerData) : Bool :=
  careerData.requiresGradSchool && careerData.gradSchoolYears > 0

/-- Guard of the residency loop (route.ts line 1094). -/
def resActive (careerData : CareerData) : Bool :=
  careerData.residencyYears > 0 && decide (0 < careerData.residencySalary)

/-- The undergrad loop run of generateLifePath (4 years from year 1,
debt and peak starting at 0). -/
def undergradRunOf (college : CollegeInput) (profile : StudentProfile) :
    List LifePathYear × ℚ × ℚ :=
  undergradGo (stickerWithRBOf college profile) (startAgeOf profile) 1 4 0 0

/-- Debt and peak entering grad school, after the redundant
re-maximization of route.ts line 1059. -/
def peakAfterUndergradOf (college : CollegeInput) (profile : StudentProfile) : ℚ :=
  max (undergradRunOf college profile).2.2 (undergradRunOf college profile).2.1

/-- The grad-school loop run (skipped unless the career requires grad
school with a positive duration). -/
def gradRunOf (college : CollegeInput) (profile : StudentProfile)
    (careerData : CareerData) : List LifePathYear × ℚ × ℚ :=
  if gradActive careerData then
    gradGo careerData 1 careerData.gradSchoolYears
      (undergradRunOf college profile).2.1 (peakAfterUndergradOf college profile)
  else
    ([], (undergradRunOf college profile).2.1, peakAfterUndergradOf college profile)

/-- The residency loop run (skipped unless residencyYears > 0 and
residencySalary > 0); gradSchoolEndAge is the hardcoded 22 +
gradSchoolYears of route.ts line 1095. -/
def residencyRunOf (college : CollegeInput) (profile : StudentProfile)
    (careerData : CareerData) : List LifePathYear × ℚ × ℚ :=
  if resActive careerData then
    residencyGo careerData (22 + careerData.gradSchoolYears) 1 careerData.residencyYears
      (gradRunOf college profile careerData).2.1 0
  else
    ([], (gradRunOf college profile careerData).2.1, 0)

/-- currentYearNum (route.ts line 1121): the timeline length before the
career loop. -/
def currentYearNumOf (college : CollegeInput) (profile : StudentProfile)
    (careerData : CareerData) : ℕ :=
  ((undergradRunOf college profile).1 ++ (gradRunOf college profile careerData).1 ++
    (residencyRunOf college profile careerData).1).length

/-- The career loop run of generateLifePath. -/
def careerRunOf (college : CollegeInput) (profile : StudentProfile)
    (careerData : CareerData) : List LifePathYear × ℚ × ℚ × Option ℕ :=
  careerGo careerData (totalDebtOf college profile careerData)
    (careerStartAgeOf profile careerData)
    (currentYearNumOf college profile careerData)
    (projectionEndAgeOf profile)
    1 (yearsToShowOf profile careerData).toNat
    (residencyRunOf college profile careerData).2.1 0 none

/-- generateLifePath (route.ts lines 998-1236), restricted to its
numeric content: the timeline and the summary (the college echo, the
major label, the occupation block and the advisory warning are outside
the claims' scope). -/
def generateLifePath (college : CollegeInput) (profile : StudentProfile)
    (careerData : CareerData) : LifePath :=
  let timeline :=
    (undergradRunOf college profile).1 ++ (gradRunOf college profile careerData).1 ++
      (residencyRunOf college profile careerData).1 ++ (careerRunOf college profile careerData).1
  let totalDebt := totalDebtOf college profile careerData
  let netWorthAtEnd : ℚ :=
    match timeline.getLast? with
    | some lastYear => if lastYear.netWorth = 0 then -totalDebt else (lastYear.netWorth : ℚ)
    | none => -totalDebt
  { timeline := timeline,
    summary :=
      { totalCost := jround (adjustedUndergradCostOf college profile +
          careerData.gradCostPerYear * (careerData.gradSchoolYears : ℚ)),
        undergradWithRoomBoard := jround (stickerWithRBOf college profile * 4),
        undergradTuitionOnly := jround (stickerTuitionOnlyOf college profile * 4),
        gradSchoolCost := jround (careerData.gradCostPerYear * (careerData.gradSchoolYears : ℚ)),
        aidAdjustedUndergrad :=
          if jsTruthy (aidAdjustedUndergradOf college profile) then
            (aidAdjustedUndergradOf college profile).map jround
          else none,
        peakDebt := jround (gradRunOf college profile careerData).2.2,
        breakEvenAge := (careerRunOf college profile careerData).2.2.2,
        netWorthAt35 := jround netWorthAtEnd } }

/-! ### State traces

Closed-form recurrences for the mutable state of generateLifePath,
indexed by the year within each phase; they are proved to characterize
the loop runs below. -/

/-- Debt state after k undergrad years. -/
def uDebtState (college : CollegeInput) (profile : StudentProfile) : ℕ → ℚ
  | 0 => 0
  | k + 1 => uDebtState college profile k + stickerWithRBOf college profile * 0.6

/-- Peak-debt state after k undergrad years. -/
def uPeakState (college : CollegeInput) (profile : StudentProfile) : ℕ → ℚ
  | 0 => 0
  | k + 1 => max (uPeakState college profile k) (uDebtState college profile (k + 1))

/-- Debt state after k grad-school years (entered with the undergrad debt). -/
def gDebtState (college : CollegeInput) (profile : StudentProfile)
    (careerData : CareerData) : ℕ → ℚ
  | 0 => uDebtState college profile 4
  | k + 1 => gDebtState college profile careerData k + careerData.gradCostPerYear

/-- Peak-debt state after k grad-school years. -/
def gPeakState (college : CollegeInput) (profile : StudentProfile)
    (careerData : CareerData) : ℕ → ℚ
  | 0 => peakAfterUndergradOf college profile
  | k + 1 => max (gPeakState college profile careerData k)
      (gDebtState college profile careerData (k + 1))

/-- Debt entering residency. -/
def debtAfterGradOf (college : CollegeInput) (profile : StudentProfile)
    (careerData : CareerData) : ℚ :=
  if gradActive careerData then
    gDebtState college profile careerData careerData.gradSchoolYears
  else uDebtState college profile 4

/-- The carried (unfloored) debt state after k residency years. -/
def rDebtState (college : CollegeInput) (profile : StudentProfile)
    (careerData : CareerData) : ℕ → ℚ
  | 0 => debtAfterGradOf college profile careerData
  | k + 1 => rDebtState college profile careerData k * 1.05 - 5000

/-- Cumulative residency earnings after k residency years. -/
def rEarnState (careerData : CareerData) : ℕ → ℚ
  | 0 => 0
  | k + 1 => rEarnState careerData k + careerData.residencySalary

/-- Debt entering the career phase. -/
def debtAfterTrainingOf (college : CollegeInput) (profile : StudentProfile)
    (careerData : CareerData) : ℚ :=
  if resActive careerData then
    rDebtState college profile careerData careerData.residencyYears
  else debtAfterGradOf college profile careerData

/-- Debt state after k career years. -/
def cDebtState (college : CollegeInput) (profile : StudentProfile)
    (careerData : CareerData) : ℕ → ℚ
  | 0 => debtAfterTrainingOf college profile careerData
  | k + 1 =>
    max 0 (cDebtState college profile careerData k * 1.05 -
      annualPaymentFn (totalDebtOf college profile careerData)
        (cDebtState college profile careerData k))

/-- Accumulated savings after k career years. -/
def cSavState (college : CollegeInput) (profile : StudentProfile)
    (careerData : CareerData) : ℕ → ℚ
  | 0 => 0
  | k + 1 =>
    cSavState college profile careerData k * (1 + INVESTMENT_RETURN) +
      max 0 ((careerSalary careerData (k + 1) : ℚ) * SAVINGS_RATE -
        annualPaymentFn (totalDebtOf college profile careerData)
          (cDebtState college profile careerData k))

/-- Unrounded net worth in career year k. -/
def careerNWOf (college : CollegeInput) (profile : StudentProfile)
    (careerData : CareerData) (k : ℕ) : ℚ :=
  cSavState college profile careerData k - cDebtState college profile careerData k

/-- First index in [k, k+fuel) at which f is strictly positive. -/
def firstPosFrom (f : ℕ → ℚ) : ℕ → ℕ → Option ℕ
  | _, 0 => none
  | k, fuel + 1 => if 0 < f k then some k else firstPosFrom f (k + 1) fuel

/-- The k-th undergrad snapshot, expressed through the state traces. -/
def uSnapOf (college : CollegeInput) (profile : StudentProfile) (k : ℕ) : LifePathYear :=
  { year := k, age := startAgeOf profile + k - 1, phase := "College",
    description :=
      if k == 1 then "Starting undergrad"
      else if k == 4 then "Senior year, preparing to graduate"
      else "Year " ++ toString k ++ " of undergrad",
    earnings := none,
    debt := jround (uDebtState college profile k),
    netWorth := -(jround (uDebtState college profile k)) }

/-- The k-th grad-school snapshot: ages use the hardcoded base 22 and
net worth is the rounded negated debt state (savings are zero). -/
def gSnapOf (college : CollegeInput) (profile : StudentProfile)
    (careerData : CareerData) (k : ℕ) : LifePathYear :=
  { year := 4 + k, age := 22 + k - 1, phase := "Grad School",
    description := gradDescription careerData k,
    earnings := none,
    debt := jround (gDebtState college profile careerData k),
    netWorth := jround (-(gDebtState college profile careerData k)) }

/-- The k-th residency snapshot: net worth is cumulative residency
earnings minus the floored debt state (earnings enter directly, not
through any savings recurrence). -/
def rSnapOf (college : CollegeInput) (profile : StudentProfile)
    (careerData : CareerData) (k : ℕ) : LifePathYear :=
  { year := 4 + careerData.gradSchoolYears + k,
    age := 22 + careerData.gradSchoolYears + k - 1, phase := "Residency",
    description := "Residency year " ++ toString k ++ " - working 80hr weeks",
    earnings := some careerData.residencySalary,
    debt := jround (max 0 (rDebtState college profile careerData k)),
    netWorth := jround (rEarnState careerData k -
      max 0 (rDebtState college profile careerData k)) }

/-- The k-th career snapshot: net worth is the rounded difference of the
savings and debt states. -/
def cSnapOf (college : CollegeInput) (profile : StudentProfile)
    (careerData : CareerData) (k : ℕ) : LifePathYear :=
  { year := currentYearNumOf college profile careerData + k,
    age := careerStartAgeOf profile careerData + k - 1, phase := "Career",
    description := if k == 1 then "First job" else "Career year " ++ toString k,
    earnings := some ((careerSalary careerData k : ℚ)),
    debt := jround (max 0 (cDebtState college profile careerData k)),
    netWorth := jround (careerNWOf college profile careerData k) }

/-- The timeline described year by year through the state traces: four
undergrad snapshots, the optional grad-school and residency snapshots,
and the career snapshots filling the 17-year horizon. -/
def expectedTimeline (college : CollegeInput) (profile : StudentProfile)
    (careerData : CareerData) : List LifePathYear :=
  (List.range 4).map (fun j => uSnapOf college profile (j + 1)) ++
    (if gradActive careerData then
      (List.range careerData.gradSchoolYears).map
        (fun j => gSnapOf college profile careerData (j + 1))
    else []) ++
    (if resActive careerData then
      (List.range careerData.residencyYears).map
        (fun j => rSnapOf college profile careerData (j + 1))
    else []) ++
    (List.range (yearsToShowOf profile careerData).toNat).map
      (fun j => cSnapOf college profile careerData (j + 1))

/-- The final peak-debt state of a run: the grad-school peak when grad
school happens, else the undergrad peak. -/
def peakStateFinal (college : CollegeInput) (profile : StudentProfile)
    (careerData : CareerData) : ℚ :=
  if gradActive careerData then
    gPeakState college profile careerData careerData.gradSchoolYears
  else peakAfterUndergradOf college profile

/-- The undergraduate debt estimate as the specification claims it:
prefer the college's reported median debt, otherwise 60% of the
adjusted sticker cost. -/
def specUndergradDebtOf (college : CollegeInput) (profile : StudentProfile) : ℤ :=
  match college.debt.medianDebt with
  | some d => jround d
  | none => jround (adjustedUndergradCostOf college profile * 0.6)

/-- The salary curve as the specification describes it, as a function
of years of experience e: 0.9·low at e = 0, linear to the midpoint
between 0.9·low and median by e = 2, linear on to median by e = 5,
linear to median + 0.6·(high − median) by e = 10, then closing 50% of
the remaining gap to high over the next 10 years. -/
def claimSalaryCurve (careerData : CareerData) (e : ℕ) : ℚ :=
  let low9 := careerData.salaryLow * 0.9
  let mid := (low9 + careerData.medianSalary) / 2
  if e = 0 then low9
  else if e ≤ 2 then low9 + (mid - low9) * ((e : ℚ) / 2)
  else if e ≤ 5 then mid + (careerData.medianSalary - mid) * (((e : ℚ) - 2) / 3)
  else if e ≤ 10 then
    careerData.medianSalary +
      0.6 * (careerData.salaryHigh - careerData.medianSalary) * (((e : ℚ) - 5) / 5)
  else
    let plateau := careerData.medianSalary + 0.6 * (careerData.salaryHigh - careerData.medianSalary)
    plateau + (careerData.salaryHigh - plateau) * 0.5 * min (((e : ℚ) - 10) / 10) 1

/-! ### Concrete inputs used by counterexamples and witnesses -/

/-- An expensive in-state college (sticker 100000 per year). -/
def collegeA : CollegeInput where
  id := 1
  name := "Expensive U"
  city := "Carson"
  state := "CA"
  ownership := "private_nonprofit"
  cost :=
    { tuitionInState := some 85000
      tuitionOutOfState := some 95000
      roomBoardOnCampus := some 15000
      avgNetPrice := none
      netPriceByIncome := [] }
  debt := { medianDebt := none }
  earnings := { median6yr := none, median10yr := none }

/-- collegeA with a reported median debt of 10000. -/
def collegeM : CollegeInput :=
  { collegeA with debt := { medianDebt := some 10000 } }

/-- A zero-cost college (explicit zero tuition and room and board). -/
def collegeZ : CollegeInput where
  id := 2
  name := "Free College"
  city := "Reno"
  state := "CA"
  ownership := "public"
  cost :=
    { tuitionInState := some 0
      tuitionOutOfState := some 0
      roomBoardOnCampus := some 0
      avgNetPrice := none
      netPriceByIncome := [] }
  debt := { medianDebt := none }
  earnings := { median6yr := none, median10yr := none }

/-- A college with the five canonical net-price brackets and an average
net price of 12000. -/
def collegeNP : CollegeInput where
  id := 3
  name := "Bracketed U"
  city := "Vegas"
  state := "NV"
  ownership := "public"
  cost :=
    { tuitionInState := some 9000
      tuitionOutOfState := some 20000
      roomBoardOnCampus := some 11000
      avgNetPrice := some 12000
      netPriceByIncome :=
        [ ("0-30000", some 9000), ("30001-48000", some 11000),
          ("48001-75000", some 15000), ("75001-110000", some 20000),
          ("110001-plus", some 25000) ] }
  debt := { medianDebt := none }
  earnings := { median6yr := none, median10yr := none }

/-- A college whose net price for the lowest bracket is exactly 0. -/
def collegeZero : CollegeInput where
  id := 4
  name := "Full Aid U"
  city := "Elko"
  state := "NV"
  ownership := "public"
  cost :=
    { tuitionInState := some 30000
      tuitionOutOfState := some 45000
      roomBoardOnCampus := some 12000
      avgNetPrice := some 14000
      netPriceByIncome := [("0-30000", some 0)] }
  debt := { medianDebt := none }
  earnings := { median6yr := none, median10yr := none }

/-- An in-state profile with the default age and no scholarships. -/
def profileA : StudentProfile where
  incomeBracket := "0-30000"
  homeState := "CA"
  intendedMajor := "biology"
  careerGoal := "surgeon"
  hasScholarships := false
  scholarshipAmount := 0
  currentAge := none

/-- profileA with a starting age of 20. -/
def profileG20 : StudentProfile :=
  { profileA with currentAge := some 20 }

/-- A profile whose income bracket is not one of the five canonical
strings. -/
def profileNP : StudentProfile where
  incomeBracket := "banana"
  homeState := "NV"
  intendedMajor := "education"
  careerGoal := "teacher"
  hasScholarships := false
  scholarshipAmount := 0
  currentAge := some 18

/-- A lowest-bracket profile for collegeZero. -/
def profileZero : StudentProfile :=
  { profileNP with incomeBracket := "0-30000" }

/-- A career with one residency year at 60000 and no grad school. -/
def careerA : CareerData where
  title := "Surgeon"
  medianSalary := 500000
  salaryLow := 300000
  salaryHigh := 700000
  growthRate := 3
  educationYears := 4
  trainingYears := 0
  requiresGradSchool := false
  gradSchoolYears := 0
  gradCostPerYear := 0
  residencyYears := 1
  residencySalary := 60000
  notes := none

/-- A low-paid career with one residency year at 60000. -/
def careerZ : CareerData :=
  { careerA with
      title := "Physician"
      medianSalary := 200000
      salaryLow := 40000
      salaryHigh := 300000 }

/-- A career requiring two years of grad school and no residency. -/
def careerGrad2 : CareerData where
  title := "Lawyer"
  medianSalary := 150000
  salaryLow := 80000
  salaryHigh := 250000
  growthRate := 2
  educationYears := 4
  trainingYears := 0
  requiresGradSchool := true
  gradSchoolYears := 2
  gradCostPerYear := 50000
  residencyYears := 0
  residencySalary := 0
  notes := none

/-- A career with neither grad school nor residency. -/
def careerNP : CareerData where
  title := "Teacher"
  medianSalary := 60000
  salaryLow := 45000
  salaryHigh := 80000
  growthRate := 1
  educationYears := 4
  trainingYears := 0
  requiresGradSchool := false
  gradSchoolYears := 0
  gradCostPerYear := 0
  residencyYears := 0
  residencySalary := 0
  notes := none

/-! ## Theorems -/

theorem jround_mono : Monotone jround :=
  fun _ _ h => Int.floor_mono (by linarith)

theorem jround_max (a b : ℚ) : jround (max a b) = max (jround a) (jround b) :=
  jround_mono.map_max

theorem jround_zero : jround 0 = 0 := by
  unfold jround
  norm_num

theorem jround_nonneg {q : ℚ} (h : 0 ≤ q) : 0 ≤ jround q := by
  rw [← jround_zero]
  exact jround_mono (by linarith)

theorem jround_foldl_max (l : List ℚ) (i : ℚ) :
    jround (l.foldl max i) = (l.map jround).foldl max (jround i) := by
  induction l generalizing i with
  | nil => rfl
  | cons a l ih => simp [List.foldl_cons, ih, jround_max]

theorem uDebtState_succ (college : CollegeInput) (profile : StudentProfile) (k : ℕ) :
    uDebtState college profile (k + 1) =
      uDebtState college profile k + stickerWithRBOf college profile * 0.6 := rfl

theorem uPeakState_succ (college : CollegeInput) (profile : StudentProfile) (k : ℕ) :
    uPeakState college profile (k + 1) =
      max (uPeakState college profile k) (uDebtState college profile (k + 1)) := rfl

theorem undergradGo_eq (college : CollegeInput) (profile : StudentProfile) :
    ∀ fuel m,
      undergradGo (stickerWithRBOf college profile) (startAgeOf profile) (m + 1) fuel
        (uDebtState college profile m) (uPeakState college profile m) =
      ((List.range fuel).map (fun j => uSnapOf college profile (m + j + 1)),
        uDebtState college profile (m + fuel), uPeakState college profile (m + fuel)) := by
  intro fuel
  induction fuel with
  | zero => intro m; simp [undergradGo]
  | succ n ih =>
    intro m
    have h1 : m + 1 + n = m + (n + 1) := by omega
    have h2 : (fun j => uSnapOf college profile (m + 1 + j + 1)) =
        (fun j => uSnapOf college profile (m + (j + 1) + 1)) := by
      funext j; congr 1; omega
    simp only [undergradGo, ← uDebtState_succ, ← uPeakState_succ, ih (m + 1), h1, h2,
      List.range_succ_eq_map, List.map_cons, List.map_map, Nat.add_zero,
      Function.comp, Nat.succ_eq_add_one]
    rfl

theorem gDebtState_succ (college : CollegeInput) (profile : StudentProfile)
    (careerData : CareerData) (k : ℕ) :
    gDebtState college profile careerData (k + 1) =
      gDebtState college profile careerData k + careerData.gradCostPerYear := rfl

theorem gPeakState_succ (college : CollegeInput) (profile : StudentProfile)
    (careerData : CareerData) (k : ℕ) :
    gPeakState college profile careerData (k + 1) =
      max (gPeakState college profile careerData k)
        (gDebtState college profile careerData (k + 1)) := rfl

theorem gradGo_eq (college : CollegeInput) (profile : StudentProfile)
    (careerData : CareerData) :
    ∀ fuel m,
      gradGo careerData (m + 1) fuel
        (gDebtState college profile careerData m) (gPeakState college profile careerData m) =
      ((List.range fuel).map (fun j => gSnapOf college profile careerData (m + j + 1)),
        gDebtState college profile careerData (m + fuel),
        gPeakState college profile careerData (m + fuel)) := by
  intro fuel
  induction fuel with
  | zero => intro m; simp [gradGo]
  | succ n ih =>
    intro m
    have h1 : m + 1 + n = m + (n + 1) := by omega
    have h2 : (fun j => gSnapOf college profile careerData (m + 1 + j + 1)) =
        (fun j => gSnapOf college profile careerData (m + (j + 1) + 1)) := by
      funext j; congr 1; omega
    simp only [gradGo, ← gDebtState_succ, ← gPeakState_succ, ih (m + 1), h1, h2,
      List.range_succ_eq_map, List.map_cons, List.map_map, Nat.add_zero,
      Function.comp, Nat.succ_eq_add_one]
    rfl

theorem rDebtState_succ (college : CollegeInput) (profile : StudentProfile)
    (careerData : CareerData) (k : ℕ) :
    rDebtState college profile careerData (k + 1) =
      rDebtState college profile careerData k * 1.05 - 5000 := rfl

theorem rEarnState_succ (careerData : CareerData) (k : ℕ) :
    rEarnState careerData (k + 1) =
      rEarnState careerData k + careerData.residencySalary := rfl

theorem residencyGo_eq (college : CollegeInput) (profile : StudentProfile)
    (careerData : CareerData) :
    ∀ fuel m,
      residencyGo careerData (22 + careerData.gradSchoolYears) (m + 1) fuel
        (rDebtState college profile careerData m) (rEarnState careerData m) =
      ((List.range fuel).map (fun j => rSnapOf college profile careerData (m + j + 1)),
        rDebtState college profile careerData (m + fuel),
        rEarnState careerData (m + fuel)) := by
  intro fuel
  induction fuel with
  | zero => intro m; simp [residencyGo]
  | succ n ih =>
    intro m
    have h1 : m + 1 + n = m + (n + 1) := by omega
    have h2 : (fun j => rSnapOf college profile careerData (m + 1 + j + 1)) =
        (fun j => rSnapOf college profile careerData (m + (j + 1) + 1)) := by
      funext j; congr 1; omega
    simp only [residencyGo, ← rDebtState_succ, ← rEarnState_succ, ih (m + 1), h1, h2,
      List.range_succ_eq_map, List.map_cons, List.map_map, Nat.add_zero,
      Function.comp, Nat.succ_eq_add_one]
    rfl

theorem cDebtState_succ (college : CollegeInput) (profile : StudentProfile)
    (careerData : CareerData) (k : ℕ) :
    cDebtState college profile careerData (k + 1) =
      max 0 (cDebtState college profile careerData k * 1.05 -
        annualPaymentFn (totalDebtOf college profile careerData)
          (cDebtState college profile careerData k)) := rfl

theorem cSavState_succ (college : CollegeInput) (profile : StudentProfile)
    (careerData : CareerData) (k : ℕ) :
    cSavState college profile careerData (k + 1) =
      cSavState college profile careerData k * (1 + INVESTMENT_RETURN) +
        max 0 ((careerSalary careerData (k + 1) : ℚ) * SAVINGS_RATE -
          annualPaymentFn (totalDebtOf college profile careerData)
            (cDebtState college profile careerData k)) := rfl

theorem careerNWOf_def (college : CollegeInput) (profile : StudentProfile)
    (careerData : CareerData) (k : ℕ) :
    careerNWOf college profile careerData k =
      cSavState college profile careerData k - cDebtState college profile careerData k := rfl

theorem careerGo_eq (college : CollegeInput) (profile : StudentProfile)
    (careerData : CareerData) :
    ∀ fuel m be,
      (∀ j, j < fuel →
        careerStartAgeOf profile careerData + (m + j) ≤ projectionEndAgeOf profile) →
      careerGo careerData (totalDebtOf college profile careerData)
        (careerStartAgeOf profile careerData) (currentYearNumOf college profile careerData)
        (projectionEndAgeOf profile) (m + 1) fuel
        (cDebtState college profile careerData m) (cSavState college profile careerData m) be =
      ((List.range fuel).map (fun j => cSnapOf college profile careerData (m + j + 1)),
        cDebtState college profile careerData (m + fuel),
        cSavState college profile careerData (m + fuel),
        match be with
        | some a => some a
        | none =>
          (firstPosFrom (careerNWOf college profile careerData) (m + 1) fuel).map
            (fun k => careerStartAgeOf profile careerData + k - 1)) := by
  intro fuel
  induction fuel with
  | zero => intro m be _; cases be <;> simp [careerGo, firstPosFrom]
  | succ n ih =>
    intro m be hage
    have hnb : ¬ (careerStartAgeOf profile careerData + (m + 1) - 1 >
        projectionEndAgeOf profile) := by
      have := hage 0 (by omega); omega
    have h1 : m + 1 + n = m + (n + 1) := by omega
    have h2 : (fun j => cSnapOf college profile careerData (m + 1 + j + 1)) =
        (fun j => cSnapOf college profile careerData (m + (j + 1) + 1)) := by
      funext j; congr 1; omega
    have hage' : ∀ j, j < n →
        careerStartAgeOf profile careerData + (m + 1 + j) ≤ projectionEndAgeOf profile := by
      intro j hj
      have := hage (j + 1) (by omega); omega
    cases be with
    | none =>
      by_cases hpos : 0 < careerNWOf college profile careerData (m + 1)
      · simp only [careerGo, if_neg hnb, ← cDebtState_succ, ← cSavState_succ,
          ← careerNWOf_def, true_and, if_pos hpos, ih (m + 1) _ hage', h1, h2,
          List.range_succ_eq_map, List.map_cons, List.map_map, Nat.add_zero,
          Function.comp_def, Nat.succ_eq_add_one, firstPosFrom, Option.map_some']
        rfl
      · have hcond : ¬ ((none : Option ℕ) = none ∧
            0 < careerNWOf college profile careerData (m + 1)) := by
          intro hh; exact hpos hh.2
        simp only [careerGo, if_neg hnb, ← cDebtState_succ, ← cSavState_succ,
          ← careerNWOf_def, true_and, if_neg hpos, ih (m + 1) _ hage', h1, h2,
          List.range_succ_eq_map, List.map_cons, List.map_map, Nat.add_zero,
          Function.comp_def, Nat.succ_eq_add_one, firstPosFrom]
        rfl
    | some a =>
      have hcond : ¬ ((some a : Option ℕ) = none ∧
          0 < careerNWOf college profile careerData (m + 1)) := by
        intro hh; exact Option.some_ne_none a hh.1
      simp only [careerGo, if_neg hnb, ← cDebtState_succ, ← cSavState_succ,
        ← careerNWOf_def, if_neg hcond, ih (m + 1) _ hage', h1, h2,
        List.range_succ_eq_map, List.map_cons, List.map_map, Nat.add_zero,
        Function.comp_def, Nat.succ_eq_add_one]
      rfl

theorem undergradRun_eq (college : CollegeInput) (profile : StudentProfile) :
    undergradRunOf college profile =
      ((List.range 4).map (fun j => uSnapOf college profile (j + 1)),
        uDebtState college profile 4, uPeakState college profile 4) := by
  have h := undergradGo_eq college profile 4 0
  simp only [Nat.zero_add] at h
  exact h

theorem gradRun_eq (college : CollegeInput) (profile : StudentProfile)
    (careerData : CareerData) :
    gradRunOf college profile careerData =
      ((if gradActive careerData then
          (List.range careerData.gradSchoolYears).map
            (fun j => gSnapOf college profile careerData (j + 1))
        else []),
        debtAfterGradOf college profile careerData,
        peakStateFinal college profile careerData) := by
  unfold gradRunOf debtAfterGradOf peakStateFinal
  by_cases h : gradActive careerData
  · have hg := gradGo_eq college profile careerData careerData.gradSchoolYears 0
    simp only [Nat.zero_add] at hg
    have hu : (undergradRunOf college profile).2.1 = uDebtState college profile 4 := by
      rw [undergradRun_eq]
    simp only [h, if_true, hu]
    exact hg
  · simp only [h, Bool.false_eq_true, if_false]
    rw [undergradRun_eq]

theorem residencyRun_eq (college : CollegeInput) (profile : StudentProfile)
    (careerData : CareerData) :
    residencyRunOf college profile careerData =
      ((if resActive careerData then
          (List.range careerData.residencyYears).map
            (fun j => rSnapOf college profile careerData (j + 1))
        else []),
        debtAfterTrainingOf college profile careerData,
        (if resActive careerData then rEarnState careerData careerData.residencyYears else 0)) := by
  unfold residencyRunOf debtAfterTrainingOf
  by_cases h : resActive careerData
  · have hr := residencyGo_eq college profile careerData careerData.residencyYears 0
    simp only [Nat.zero_add] at hr
    have hg : (gradRunOf college profile careerData).2.1 =
        debtAfterGradOf college profile careerData := by
      rw [gradRun_eq]
    simp only [h, if_true, hg]
    exact hr
  · simp only [h, Bool.false_eq_true, if_false]
    rw [gradRun_eq]

theorem careerRun_eq (college : CollegeInput) (profile : StudentProfile)
    (careerData : CareerData) :
    careerRunOf college profile careerData =
      ((List.range (yearsToShowOf profile careerData).toNat).map
          (fun j => cSnapOf college profile careerData (j + 1)),
        cDebtState college profile careerData (yearsToShowOf profile careerData).toNat,
        cSavState college profile careerData (yearsToShowOf profile careerData).toNat,
        (firstPosFrom (careerNWOf college profile careerData) 1
            (yearsToShowOf profile careerData).toNat).map
          (fun k => careerStartAgeOf profile careerData + k - 1)) := by
  unfold careerRunOf
  have hage : ∀ j, j < (yearsToShowOf profile careerData).toNat →
      careerStartAgeOf profile careerData + (0 + j) ≤ projectionEndAgeOf profile := by
    intro j hj
    unfold yearsToShowOf at hj
    omega
  have hc := careerGo_eq college profile careerData
    (yearsToShowOf profile careerData).toNat 0 none hage
  simp only [Nat.zero_add] at hc
  have hr : (residencyRunOf college profile careerData).2.1 =
      debtAfterTrainingOf college profile careerData := by
    rw [residencyRun_eq]
  rw [hr]
  exact hc

theorem timeline_eq (college : CollegeInput) (profile : StudentProfile)
    (careerData : CareerData) :
    (generateLifePath college profile careerData).timeline =
      expectedTimeline college profile careerData := by
  show (undergradRunOf college profile).1 ++ (gradRunOf college profile careerData).1 ++
      (residencyRunOf college profile careerData).1 ++
      (careerRunOf college profile careerData).1 = _
  rw [undergradRun_eq, gradRun_eq, residencyRun_eq, careerRun_eq]
  unfold expectedTimeline
  simp [List.append_assoc]

theorem summary_peakDebt (college : CollegeInput) (profile : StudentProfile)
    (careerData : CareerData) :
    (generateLifePath college profile careerData).summary.peakDebt =
      jround (peakStateFinal college profile careerData) := by
  show jround (gradRunOf college profile careerData).2.2 = _
  rw [gradRun_eq]

theorem summary_breakEvenAge (college : CollegeInput) (profile : StudentProfile)
    (careerData : CareerData) :
    (generateLifePath college profile careerData).summary.breakEvenAge =
      (firstPosFrom (careerNWOf college profile careerData) 1
          (yearsToShowOf profile careerData).toNat).map
        (fun k => careerStartAgeOf profile careerData + k - 1) := by
  show (careerRunOf college profile careerData).2.2.2 = _
  rw [careerRun_eq]

theorem uPeakState_foldl (college : CollegeInput) (profile : StudentProfile) :
    ∀ k, uPeakState college profile k =
      ((List.range k).map (fun j => uDebtState college profile (j + 1))).foldl max 0 := by
  intro k
  induction k with
  | zero => rfl
  | succ n ih =>
    rw [uPeakState_succ, ih, List.range_succ]
    simp [List.foldl_append]

theorem peakAfterUndergrad_eq (college : CollegeInput) (profile : StudentProfile) :
    peakAfterUndergradOf college profile = uPeakState college profile 4 := by
  unfold peakAfterUndergradOf
  rw [undergradRun_eq]
  show max (uPeakState college profile 4) (uDebtState college profile 4) = _
  rw [show uPeakState college profile 4 =
    max (uPeakState college profile 3) (uDebtState college profile 4) from rfl]
  rw [max_assoc, max_self]

theorem gPeakState_foldl (college : CollegeInput) (profile : StudentProfile)
    (careerData : CareerData) :
    ∀ k, gPeakState college profile careerData k =
      ((List.range k).map (fun j => gDebtState college profile careerData (j + 1))).foldl max
        (peakAfterUndergradOf college profile) := by
  intro k
  induction k with
  | zero => rfl
  | succ n ih =>
    rw [gPeakState_succ, ih, List.range_succ]
    simp [List.foldl_append]

/-- C1 (amended): the summary peakDebt equals the maximum debt over the
undergrad and grad-school snapshots only (with 0 as the floor of the
fold); the residency and career loops do not update peakDebt. -/
theorem c1_peakDebt_over_school_phases (college : CollegeInput)
    (profile : StudentProfile) (careerData : CareerData) :
    (generateLifePath college profile careerData).summary.peakDebt =
      (((generateLifePath college profile careerData).timeline.filter
          (fun y => y.phase == "College" || y.phase == "Grad School")).map
        (fun y => y.debt)).foldl max 0 := by
  rw [summary_peakDebt, timeline_eq]
  unfold expectedTimeline peakStateFinal
  rw [List.filter_append, List.filter_append, List.filter_append]
  have hu : ((List.range 4).map (fun j => uSnapOf college profile (j + 1))).filter
      (fun y => y.phase == "College" || y.phase == "Grad School") =
      (List.range 4).map (fun j => uSnapOf college profile (j + 1)) := by
    rw [List.filter_eq_self]
    intro y hy
    simp only [List.mem_map] at hy
    obtain ⟨j, _, rfl⟩ := hy
    rfl
  have hg : ∀ n, ((List.range n).map
      (fun j => gSnapOf college profile careerData (j + 1))).filter
      (fun y => y.phase == "College" || y.phase == "Grad School") =
      (List.range n).map (fun j => gSnapOf college profile careerData (j + 1)) := by
    intro n
    rw [List.filter_eq_self]
    intro y hy
    simp only [List.mem_map] at hy
    obtain ⟨j, _, rfl⟩ := hy
    rfl
  have hr : ∀ n, ((List.range n).map
      (fun j => rSnapOf college profile careerData (j + 1))).filter
      (fun y => y.phase == "College" || y.phase == "Grad School") = [] := by
    intro n
    rw [List.filter_eq_nil_iff]
    intro y hy
    simp only [List.mem_map] at hy
    obtain ⟨j, _, rfl⟩ := hy
    simp [rSnapOf]
  have hc : ∀ n, ((List.range n).map
      (fun j => cSnapOf college profile careerData (j + 1))).filter
      (fun y => y.phase == "College" || y.phase == "Grad School") = [] := by
    intro n
    rw [List.filter_eq_nil_iff]
    intro y hy
    simp only [List.mem_map] at hy
    obtain ⟨j, _, rfl⟩ := hy
    simp [cSnapOf]
  rw [hu, hc]
  by_cases hga : gradActive careerData = true <;>
    by_cases hres : resActive careerData = true
  · simp only [if_pos hga, if_pos hres, hg, hr]
    rw [gPeakState_foldl, peakAfterUndergrad_eq, uPeakState_foldl]
    rw [jround_foldl_max, jround_foldl_max, jround_zero]
    simp only [List.append_nil, List.map_append, List.foldl_append, List.map_map]
    rfl
  · simp only [if_pos hga, if_neg hres, hg, List.filter_nil]
    rw [gPeakState_foldl, peakAfterUndergrad_eq, uPeakState_foldl]
    rw [jround_foldl_max, jround_foldl_max, jround_zero]
    simp only [List.append_nil, List.map_append, List.foldl_append, List.map_map]
    rfl
  · simp only [if_neg hga, if_pos hres, hr, List.filter_nil]
    rw [peakAfterUndergrad_eq, uPeakState_foldl, jround_foldl_max, jround_zero]
    simp only [List.append_nil, List.map_append, List.foldl_append, List.map_map]
    rfl
  · simp only [if_neg hga, if_neg hres, List.filter_nil]
    rw [peakAfterUndergrad_eq, uPeakState_foldl, jround_foldl_max, jround_zero]
    simp only [List.append_nil, List.map_append, List.foldl_append, List.map_map]
    rfl

set_option maxRecDepth 400000 in
unseal Rat.add Rat.mul Rat.inv Rat.sub Rat.ofScientific in
/-- C1 (counterexample): for collegeA/profileA/careerA the summary
peakDebt is 240000 while the maximum debt over all snapshots is 247000
(the debt keeps growing during the residency year), so peakDebt is not
the maximum of debt over the whole timeline. -/
theorem c1_counterexample :
    (generateLifePath collegeA profileA careerA).summary.peakDebt = 240000 ∧
    (((generateLifePath collegeA profileA careerA).timeline.map
      (fun y => y.debt)).foldl max 0) = 247000 ∧
    (240000 : ℤ) ≠ 247000 := by
  decide

/-- C2 (amended): the timeline is exactly the snapshot-by-snapshot
description through the debt/savings traces, in which undergrad and
grad-school snapshots have netWorth equal to the (rounded) negated debt
with savings 0, career snapshots have netWorth equal to the rounded
difference of the savings and debt states, and residency snapshots have
netWorth equal to the rounded cumulative residency earnings minus the
floored debt — earnings enter net worth directly there, not through the
savings recurrence.  In particular every College snapshot satisfies the
exact field identity netWorth = 0 - debt. -/
theorem c2_netWorth_identity_by_phase (college : CollegeInput)
    (profile : StudentProfile) (careerData : CareerData) :
    (generateLifePath college profile careerData).timeline =
      expectedTimeline college profile careerData ∧
    ∀ y ∈ (generateLifePath college profile careerData).timeline,
      y.phase = "College" → y.netWorth = 0 - y.debt := by
  refine ⟨timeline_eq college profile careerData, ?_⟩
  rw [timeline_eq]
  intro y hy hphase
  unfold expectedTimeline at hy
  simp only [List.mem_append] at hy
  rcases hy with ((hy | hy) | hy) | hy
  · rw [List.mem_map] at hy
    obtain ⟨j, _, rfl⟩ := hy
    simp [uSnapOf]
  · by_cases hga : gradActive careerData = true
    · rw [if_pos hga, List.mem_map] at hy
      obtain ⟨j, _, rfl⟩ := hy
      exact absurd hphase (by simp [gSnapOf])
    · rw [if_neg hga] at hy
      exact absurd hy (List.not_mem_nil y)
  · by_cases hres : resActive careerData = true
    · rw [if_pos hres, List.mem_map] at hy
      obtain ⟨j, _, rfl⟩ := hy
      exact absurd hphase (by simp [rSnapOf])
    · rw [if_neg hres] at hy
      exact absurd hy (List.not_mem_nil y)
  · rw [List.mem_map] at hy
    obtain ⟨j, _, rfl⟩ := hy
    exact absurd hphase (by simp [cSnapOf])

set_option maxRecDepth 400000 in
unseal Rat.add Rat.mul Rat.inv Rat.sub Rat.ofScientific in
/-- C2 (counterexample): in the residency year of
collegeA/profileA/careerA the snapshot has debt 247000 but netWorth
-187000 (the 60000 residency earnings are added in directly), which is
not accumulatedSavings (= 0) minus the debt. -/
theorem c2_counterexample :
    (((generateLifePath collegeA profileA careerA).timeline[4]?).map
      (fun y => (y.phase, y.debt, y.netWorth))) = some ("Residency", 247000, -187000) ∧
    ¬ ((-187000 : ℤ) = 0 - 247000) := by
  decide

set_option maxRecDepth 400000 in
unseal Rat.add Rat.mul Rat.inv Rat.sub Rat.ofScientific in
/-- C2 (witness): the amended statement applied to
collegeA/profileA/careerA at the first undergrad snapshot. -/
theorem c2_witness :
    uSnapOf collegeA profileA 1 ∈ (generateLifePath collegeA profileA careerA).timeline ∧
    (uSnapOf collegeA profileA 1).phase = "College" ∧
    (uSnapOf collegeA profileA 1).netWorth = 0 - (uSnapOf collegeA profileA 1).debt :=
  ⟨by decide, by decide,
    (c2_netWorth_identity_by_phase collegeA profileA careerA).2
      (uSnapOf collegeA profileA 1) (by decide) (by decide)⟩

/-- C3 (amended): breakEvenAge is the age of the first career-phase
year whose unrounded net worth (savings minus debt states) is strictly
positive, or null if none exists in the horizon; snapshots of earlier
phases (including residency snapshots with positive netWorth) are never
consulted, and later career years never overwrite it. -/
theorem c3_breakEven_first_career_crossing (college : CollegeInput)
    (profile : StudentProfile) (careerData : CareerData) :
    (generateLifePath college profile careerData).summary.breakEvenAge =
      (firstPosFrom (careerNWOf college profile careerData) 1
          (yearsToShowOf profile careerData).toNat).map
        (fun k => careerStartAgeOf profile careerData + k - 1) := by
  show (careerRunOf college profile careerData).2.2.2 = _
  rw [careerRun_eq]

set_option maxRecDepth 400000 in
unseal Rat.add Rat.mul Rat.inv Rat.sub Rat.ofScientific in
/-- C3 (counterexample): for collegeZ/profileA/careerZ the first
snapshot with positive netWorth is the residency year at age 22, but
breakEvenAge is 23 (the first career year), so breakEvenAge is not the
age of the first positive-net-worth snapshot of the whole timeline. -/
theorem c3_counterexample :
    (((generateLifePath collegeZ profileA careerZ).timeline.find?
        (fun y => decide (0 < y.netWorth))).map (fun y => y.age)) = some 22 ∧
    (generateLifePath collegeZ profileA careerZ).summary.breakEvenAge = some 23 ∧
    ((some 23 : Option ℕ) ≠ some 22) := by
  decide

set_option maxRecDepth 400000 in
unseal Rat.add Rat.mul Rat.inv Rat.sub Rat.ofScientific in
/-- C4 (counterexample): collegeM reports a median debt of 10000, yet
the undergraduate debt estimate is 240000 = round(0.6 x adjusted
sticker cost); the provided median debt is not preferred. -/
theorem c4_counterexample :
    collegeM.debt.medianDebt = some 10000 ∧
    undergradDebtEst collegeM profileA = 240000 ∧
    specUndergradDebtOf collegeM profileA = 10000 ∧
    ((240000 : ℤ) ≠ 10000) := by
  decide

/-- C4 (amended): the undergraduate debt estimate is always
round(adjusted sticker cost x 0.6); the college's provided median debt
is ignored by the whole simulation (replacing it changes nothing). -/
theorem c4_median_debt_ignored (college : CollegeInput) (profile : StudentProfile)
    (careerData : CareerData) (d : Option ℚ) :
    generateLifePath { college with debt := { medianDebt := d } } profile careerData =
      generateLifePath college profile careerData ∧
    undergradDebtEst college profile =
      jround (adjustedUndergradCostOf college profile * 0.6) :=
  ⟨rfl, rfl⟩

/-- C5: for every career profile and every career year, the simulated
salary is exactly the rounded value of the piecewise curve described by
the specification, as a function of e = careerYear - 1. -/
theorem c5_salary_curve_matches_spec (careerData : CareerData) (careerYear : ℕ) :
    careerSalary careerData careerYear =
      jround (claimSalaryCurve careerData (careerYear - 1)) := by
  unfold careerSalary claimSalaryCurve
  by_cases h0 : careerYear - 1 = 0
  · simp [h0]
  · have h0' : ¬ careerYear - 1 ≤ 0 := by omega
    by_cases h2 : careerYear - 1 ≤ 2
    · simp only [if_neg h0', if_neg h0, if_pos h2]
      congr 1
      ring
    · by_cases h5 : careerYear - 1 ≤ 5
      · simp only [if_neg h0', if_neg h0, if_neg h2, if_pos h5]
        congr 1
        ring
      · by_cases h10 : careerYear - 1 ≤ 10
        · simp only [if_neg h0', if_neg h0, if_neg h2, if_neg h5, if_pos h10]
          congr 1
          ring
        · simp only [if_neg h0', if_neg h0, if_neg h2, if_neg h5, if_neg h10]
          congr 1
          ring

set_option maxRecDepth 400000 in
unseal Rat.add Rat.mul Rat.inv Rat.sub Rat.ofScientific in
/-- C6: with a starting age of 20 and a two-year grad school, the first
grad-school snapshot is year 5 at age 22 (hardcoded base 22), although
startAge + year - 1 = 24; the ages even decrease from 23 (senior
undergrad year) to 22 and later jump from 23 to 26 into the career
phase (which does use startAge), so grad-school and residency ages are
not derived from the profile's starting age. -/
theorem c6_grad_ages_hardcoded :
    (((generateLifePath collegeA profileG20 careerGrad2).timeline[4]?).map
      (fun y => (y.year, y.age))) = some (5, 22) ∧
    startAgeOf profileG20 = 20 ∧
    (((generateLifePath collegeA profileG20 careerGrad2).timeline[3]?).map
      (fun y => y.age)) = some 23 ∧
    (((generateLifePath collegeA profileG20 careerGrad2).timeline[5]?).map
      (fun y => y.age)) = some 23 ∧
    (((generateLifePath collegeA profileG20 careerGrad2).timeline[6]?).map
      (fun y => (y.phase, y.age))) = some ("Career", 26) := by
  decide

/-- C7 (amended): every snapshot's displayed debt is non-negative
(given non-negative sticker price and grad-school cost), and the career
phase's carried debt state is floored at 0 every year; the residency
update, however, does not floor the carried state (see the
counterexample). -/
theorem c7_displayed_debt_nonneg (college : CollegeInput) (profile : StudentProfile)
    (careerData : CareerData) (y : LifePathYear) (k : ℕ)
    (hs : 0 ≤ stickerWithRBOf college profile) (hg : 0 ≤ careerData.gradCostPerYear)
    (hy : y ∈ (generateLifePath college profile careerData).timeline) (hk : 0 < k) :
    0 ≤ y.debt ∧ 0 ≤ cDebtState college profile careerData k := by
  have hu : ∀ n, 0 ≤ uDebtState college profile n := by
    intro n
    induction n with
    | zero => exact le_refl 0
    | succ m ih =>
      rw [uDebtState_succ]
      have : 0 ≤ stickerWithRBOf college profile * 0.6 := mul_nonneg hs (by norm_num)
      linarith
  have hgd : ∀ n, 0 ≤ gDebtState college profile careerData n := by
    intro n
    induction n with
    | zero => exact hu 4
    | succ m ih =>
      rw [gDebtState_succ]
      linarith
  constructor
  · rw [timeline_eq] at hy
    unfold expectedTimeline at hy
    simp only [List.mem_append] at hy
    rcases hy with ((hy | hy) | hy) | hy
    · rw [List.mem_map] at hy
      obtain ⟨j, _, rfl⟩ := hy
      exact jround_nonneg (hu (j + 1))
    · by_cases hga : gradActive careerData = true
      · rw [if_pos hga, List.mem_map] at hy
        obtain ⟨j, _, rfl⟩ := hy
        exact jround_nonneg (hgd (j + 1))
      · rw [if_neg hga] at hy
        exact absurd hy (List.not_mem_nil y)
    · by_cases hres : resActive careerData = true
      · rw [if_pos hres, List.mem_map] at hy
        obtain ⟨j, _, rfl⟩ := hy
        exact jround_nonneg (le_max_left 0 _)
      · rw [if_neg hres] at hy
        exact absurd hy (List.not_mem_nil y)
    · rw [List.mem_map] at hy
      obtain ⟨j, _, rfl⟩ := hy
      exact jround_nonneg (le_max_left 0 _)
  · rcases k with _ | m
    · exact absurd hk (by omega)
    · rw [cDebtState_succ]
      exact le_max_left 0 _

set_option maxRecDepth 400000 in
unseal Rat.add Rat.mul Rat.inv Rat.sub Rat.ofScientific in
/-- C7 (counterexample): with a zero-cost college and one residency
year, the carried debt state exiting the residency loop is -5000: the
residency update debt x 1.05 - 5000 is not floored at 0 in the state,
only in the displayed snapshot. -/
theorem c7_counterexample :
    (residencyRunOf collegeZ profileA careerZ).2.1 = -5000 ∧
    ¬ ((0 : ℚ) ≤ -5000) := by
  decide

set_option maxRecDepth 400000 in
unseal Rat.add Rat.mul Rat.inv Rat.sub Rat.ofScientific in
/-- C7 (witness): the amended statement applied to
collegeA/profileA/careerA at the first undergrad snapshot and k = 1. -/
theorem c7_witness :
    ((0 : ℚ) ≤ stickerWithRBOf collegeA profileA ∧
      (0 : ℚ) ≤ careerA.gradCostPerYear ∧
      uSnapOf collegeA profileA 1 ∈ (generateLifePath collegeA profileA careerA).timeline ∧
      0 < 1) ∧
    ((0 : ℤ) ≤ (uSnapOf collegeA profileA 1).debt ∧
      (0 : ℚ) ≤ cDebtState collegeA profileA careerA 1) :=
  ⟨⟨by decide, by decide, by decide, by decide⟩,
    c7_displayed_debt_nonneg collegeA profileA careerA (uSnapOf collegeA profileA 1) 1
      (by decide) (by decide) (by decide) (by decide)⟩

/-- C8 (amended): a request is rejected only for a missing or empty
college list; the income bracket is never validated, and a bracket
missing from the college's net-price table silently falls back to
avgNetPrice (or null) while the simulation proceeds. -/
theorem c8_bracket_not_validated (req : LifePathRequest) (college : CollegeInput)
    (bracket : String)
    (h : college.cost.netPriceByIncome.lookup bracket = none) :
    (requestRejected req = false ↔ req.colleges ≠ []) ∧
    getAidAdjustedPrice college bracket = college.cost.avgNetPrice := by
  constructor
  · unfold requestRejected
    rcases req with ⟨cs, pr⟩
    cases cs <;> simp
  · unfold getAidAdjustedPrice
    rw [h]
    rfl

set_option maxRecDepth 400000 in
unseal Rat.add Rat.mul Rat.inv Rat.sub Rat.ofScientific in
/-- C8 (counterexample): the out-of-set bracket "banana" is not
rejected: the request passes validation, the price silently resolves to
the average net price 12000, and the simulation produces a summary
using it (aid-adjusted undergrad figure 48000). -/
theorem c8_counterexample :
    requestRejected { colleges := [collegeNP], profile := profileNP } = false ∧
    getAidAdjustedPrice collegeNP "banana" = some 12000 ∧
    (generateLifePath collegeNP profileNP careerNP).summary.aidAdjustedUndergrad =
      some 48000 := by
  decide

/-- C8 (witness): the amended statement applied to collegeNP and the
bracket "banana". -/
theorem c8_witness :
    collegeNP.cost.netPriceByIncome.lookup "banana" = none ∧
    ((requestRejected { colleges := [collegeNP], profile := profileNP } = false ↔
        ({ colleges := [collegeNP], profile := profileNP } : LifePathRequest).colleges ≠ []) ∧
      getAidAdjustedPrice collegeNP "banana" = collegeNP.cost.avgNetPrice) :=
  ⟨by decide,
    c8_bracket_not_validated { colleges := [collegeNP], profile := profileNP }
      collegeNP "banana" (by decide)⟩

/-- C9: the career classifier sends "I want to be a brain surgeon" to
"neurosurgery" (the neurosurgery rule precedes the surgery and medicine
rules), and any text matching no exact key and no keyword rule gets the
default tag "not_sure". -/
theorem c9_classifier_specificity_and_default (t : String)
    (h : noCareerRuleMatches t = true) :
    matchCareerFromText "I want to be a brain surgeon" = "neurosurgery" ∧
    matchCareerFromText t = "not_sure" := by
  constructor
  · decide
  · simp only [noCareerRuleMatches, Bool.and_eq_true, List.all_eq_true] at h
    obtain ⟨h1, h2⟩ := h
    simp only [matchCareerFromText]
    rw [Option.isNone_iff_eq_none] at h1
    rw [h1]
    have hfind : careerPatterns.find?
        (fun rule => rule.1.any
          (fun ph => wordBoundedIn ph (trimChars (lowerChars t.data)))) = none := by
      rw [List.find?_eq_none]
      intro x hx
      have := h2 x hx
      simp only [Bool.not_eq_eq_eq_not, Bool.not_true] at this
      simp [this]
    rw [hfind]

/-- C9 (witness): the theorem applied to the unmatched text
"astronaut". -/
theorem c9_witness :
    noCareerRuleMatches "astronaut" = true ∧
    (matchCareerFromText "I want to be a brain surgeon" = "neurosurgery" ∧
      matchCareerFromText "astronaut" = "not_sure") :=
  ⟨by decide, c9_classifier_specificity_and_default "astronaut" (by decide)⟩

/-- C10: when the aid-adjusted per-year price resolves to exactly 0,
the summary reports aidAdjustedUndergrad as null, because the code
tests the price for JavaScript truthiness rather than for null. -/
theorem c10_zero_price_reported_null (college : CollegeInput)
    (profile : StudentProfile) (careerData : CareerData)
    (h : getAidAdjustedPrice college profile.incomeBracket = some 0) :
    (generateLifePath college profile careerData).summary.aidAdjustedUndergrad = none := by
  show (if jsTruthy (aidAdjustedUndergradOf college profile) then
      (aidAdjustedUndergradOf college profile).map jround else none) = none
  have : aidAdjustedUndergradOf college profile = none := by
    unfold aidAdjustedUndergradOf aidAdjustedPerYearOf
    rw [h]
    rfl
  rw [this]
  rfl

/-- C10 (witness): the theorem applied to collegeZero, whose lowest
bracket has a zero net price. -/
theorem c10_witness :
    getAidAdjustedPrice collegeZero profileZero.incomeBracket = some 0 ∧
    (generateLifePath collegeZero profileZero careerNP).summary.aidAdjustedUndergrad =
      none :=
  ⟨by decide, c10_zero_price_reported_null collegeZero profileZero careerNP (by decide)⟩

end CollegePicker
